import Mathlib

/-!
Shallow embedding of `python/shotgun_model/overlaywidget.py`.

The module defines a Qt widget, `OverlayWidget`, that is layered on top of a
parent widget and shows one of five modes (off, spinner, error text, info
text, info pixmap), plus a `ResizeEventFilter` that re-broadcasts the parent
widget's resize events.

Modelling decisions, each faithful to the source:
* The mutable attributes of an `OverlayWidget` instance, together with the
  relevant pieces of toolkit-held widget state the methods manipulate
  (`setVisible`, the owned `QTimer`, `resize`, `repaint`) become the fields of
  the `OverlayState` structure.  Qt's `repaint()` schedules/performs a paint
  and does not change any of the attributes, so it is modelled by a counter
  of repaint requests.
* Python integers become `Nat` (all quantities involved are non-negative
  counters or angles); pixel coordinates produced by the painter become `Int`
  because centering offsets such as `width/2 - 40` can go negative.  The
  source is Python 2, whose `/` on ints is floor division; every division in
  the file divides a non-negative value by 2, where floor, truncation and
  Euclidean division agree, so Lean's `Int` division is used directly.
* `paintEvent` only reads the instance attributes; its painter calls are
  modelled as a list of draw commands.  `painter.translate` is composed into
  the coordinates of the subsequent draw calls.  Passing `None` where Qt
  requires a string or pixmap (`drawText(..., None)`,
  `self._message_pixmap.width()` on `None`) raises in Python, so the
  embedding of `paintEvent` returns an `Option`, `none` standing for that
  exception.
* A `QPixmap` is modelled by its dimensions, the only data the file reads
  from one.  The `sg_logo.png` resource pixmap is a parameter of the
  constructor model since its content is outside the repository.
-/

set_option autoImplicit false

/-- A pixmap, modelled by the only data the source reads from one:
its width and height. -/
structure Pixmap where
  width : Nat
  height : Nat
deriving Repr, DecidableEq

/-- One painter call issued during `paintEvent`, with `translate` offsets
already composed into the coordinates.  Angles of `arc` are in Qt's units of
1/16 of a degree, exactly the integers the source passes to `drawArc`. -/
inductive DrawCmd where
  | rect (x y w h : Int)
  | pixmap (x y : Int) (p : Pixmap)
  | arc (x y w h : Int) (startAngle spanAngle : Int)
  | text (x y w h : Int) (msg : String)
deriving Repr, DecidableEq

namespace OverlayWidget

/-- `OverlayWidget.MODE_OFF = 0` -/
def MODE_OFF : Nat := 0
/-- `OverlayWidget.MODE_SPIN = 1` -/
def MODE_SPIN : Nat := 1
/-- `OverlayWidget.MODE_ERROR = 2` -/
def MODE_ERROR : Nat := 2
/-- `OverlayWidget.MODE_INFO_TEXT = 3` -/
def MODE_INFO_TEXT : Nat := 3
/-- `OverlayWidget.MODE_INFO_PIXMAP = 4` -/
def MODE_INFO_PIXMAP : Nat := 4

/-- The mutable state of one `OverlayWidget` instance: its Python attributes
(`_mode`, `_spin_angle`, `_message`, `_message_pixmap`, `_sg_icon`) together
with the toolkit-held state its methods manipulate: visibility
(`setVisible`), the owned `QTimer` (`start`/`stop` and the interval passed to
`start`), the widget's size (`resize`), and a counter of `repaint()` calls. -/
structure OverlayState where
  mode : Nat
  spin_angle : Nat
  message : Option String
  message_pixmap : Option Pixmap
  sg_icon : Pixmap
  visible : Bool
  timerActive : Bool
  timerInterval : Nat
  size : Nat × Nat
  repaints : Nat
deriving Repr, DecidableEq

/-- `OverlayWidget.__init__`: hidden, mode off, timer created but not
started, spin angle 0, both payload fields `None`, icon loaded from the
resource file.  The icon pixmap and the widget's initial size are parameters
(the resource content and Qt's default geometry are outside the source). -/
def initState (sg_logo : Pixmap) (size0 : Nat × Nat) : OverlayState :=
  { mode := MODE_OFF
    spin_angle := 0
    message := none
    message_pixmap := none
    sg_icon := sg_logo
    visible := false
    timerActive := false
    timerInterval := 0
    size := size0
    repaints := 0 }

/-- `OverlayWidget._on_parent_resized`: `self.resize(self._parent.size())`.
The parent's current size is the argument. -/
def on_parent_resized (s : OverlayState) (parentSize : Nat × Nat) : OverlayState :=
  { s with size := parentSize }

/-- `OverlayWidget.on_animation`: increment `_spin_angle`, reset it to 0 when
it reaches 90, then `repaint()`. -/
def on_animation (s : OverlayState) : OverlayState :=
  let a := s.spin_angle + 1
  { s with spin_angle := if a = 90 then 0 else a
           repaints := s.repaints + 1 }

/-- `OverlayWidget.start_spin`: `self._timer.start(40)`,
`self.setVisible(True)`, `self._mode = MODE_SPIN`. -/
def start_spin (s : OverlayState) : OverlayState :=
  { s with timerActive := true
           timerInterval := 40
           visible := true
           mode := MODE_SPIN }

/-- `OverlayWidget.show_error_message`: stop the timer, become visible, store
the message, switch to error mode, `repaint()`. -/
def show_error_message (s : OverlayState) (msg : String) : OverlayState :=
  { s with timerActive := false
           visible := true
           message := some msg
           mode := MODE_ERROR
           repaints := s.repaints + 1 }

/-- `OverlayWidget.show_message`: stop the timer, become visible, store the
message, switch to info-text mode, `repaint()`. -/
def show_message (s : OverlayState) (msg : String) : OverlayState :=
  { s with timerActive := false
           visible := true
           message := some msg
           mode := MODE_INFO_TEXT
           repaints := s.repaints + 1 }

/-- `OverlayWidget.show_message_pixmap`: stop the timer, become visible,
store the pixmap, switch to info-pixmap mode, `repaint()`. -/
def show_message_pixmap (s : OverlayState) (pixmap : Pixmap) : OverlayState :=
  { s with timerActive := false
           visible := true
           message_pixmap := some pixmap
           mode := MODE_INFO_PIXMAP
           repaints := s.repaints + 1 }

/-- `OverlayWidget.hide`: stop the timer, switch to off mode,
`self.setVisible(False)`. -/
def hide (s : OverlayState) : OverlayState :=
  { s with timerActive := false
           mode := MODE_OFF
           visible := false }

/-- `OverlayWidget.paintEvent`.  `w`, `h` are the paint device's dimensions
(`painter.device().width()/height()`).  Returns the instance state after the
call paired with the list of draw commands, or `none` when the Python code
would raise (drawing a `None` message or reading `.width()` of a `None`
pixmap).  `painter.translate` offsets are composed into the coordinates of
the subsequent draw calls. -/
def paintEvent (s : OverlayState) (w h : Nat) : Option (OverlayState × List DrawCmd) :=
  if s.mode = MODE_OFF then
    some (s, [])
  else
    let backdrop := DrawCmd.rect 0 0 (w : Int) (h : Int)
    if s.mode = MODE_SPIN then
      let tx : Int := (w : Int) / 2 - 40
      let ty : Int := (h : Int) / 2 - 40
      some (s, [backdrop,
                DrawCmd.pixmap (tx + 8) (ty + 24) s.sg_icon,
                DrawCmd.arc tx ty 80 80 ((0 + (s.spin_angle : Int)) * 4 * 16) (340 * 16)])
    else if s.mode = MODE_INFO_TEXT then
      match s.message with
      | none => none
      | some m => some (s, [backdrop, DrawCmd.text 0 0 (w : Int) (h : Int) m])
    else if s.mode = MODE_ERROR then
      match s.message with
      | none => none
      | some m => some (s, [backdrop, DrawCmd.text 0 0 (w : Int) (h : Int) m])
    else if s.mode = MODE_INFO_PIXMAP then
      match s.message_pixmap with
      | none => none
      | some p =>
        let tx : Int := (w : Int) / 2 - (p.width : Int) / 2
        let ty : Int := (h : Int) / 2 - (p.height : Int) / 2
        some (s, [backdrop, DrawCmd.pixmap tx ty p])
    else
      some (s, [backdrop])

end OverlayWidget

namespace ResizeEventFilter

/-- The type tag of a Qt event, as compared against `QtCore.QEvent.Resize`
by `ResizeEventFilter.eventFilter`. -/
inductive QEventType where
  | Resize
  | Other (tag : Nat)
deriving Repr, DecidableEq

/-- The observable outcome of one `eventFilter` call: whether the `resized`
signal was emitted, and the filter's return value (`True` would consume the
event, `False` passes it on). -/
structure FilterResult where
  emitted : Bool
  consumed : Bool
deriving Repr, DecidableEq

/-- `ResizeEventFilter.eventFilter`: emit `resized` when the event is a
resize event, and always `return False` so the event propagates. -/
def eventFilter (t : QEventType) : FilterResult :=
  if t = QEventType.Resize then
    { emitted := true, consumed := false }
  else
    { emitted := false, consumed := false }

/-- The combined effect of a parent-widget event on the overlay, following
the wiring set up in `OverlayWidget.__init__`: the installed filter sees the
event first; when it emits `resized`, the connected slot
`OverlayWidget._on_parent_resized` runs.  Returns the overlay state after
dispatch and whether the filter consumed the event. -/
def parentEventStep (s : OverlayWidget.OverlayState) (t : QEventType)
    (parentSize : Nat × Nat) : OverlayWidget.OverlayState × Bool :=
  let r := eventFilter t
  (if r.emitted then OverlayWidget.on_parent_resized s parentSize else s, r.consumed)

end ResizeEventFilter

/-- One call into the overlay widget's mutating entry points: the five public
operations plus the timer callback `on_animation`. -/
inductive Op where
  | start_spin
  | show_error_message (msg : String)
  | show_message (msg : String)
  | show_message_pixmap (p : Pixmap)
  | hide
  | on_animation
deriving Repr, DecidableEq

/-- Dispatch one `Op` on the state. -/
def execOp (s : OverlayWidget.OverlayState) : Op → OverlayWidget.OverlayState
  | Op.start_spin => OverlayWidget.start_spin s
  | Op.show_error_message msg => OverlayWidget.show_error_message s msg
  | Op.show_message msg => OverlayWidget.show_message s msg
  | Op.show_message_pixmap p => OverlayWidget.show_message_pixmap s p
  | Op.hide => OverlayWidget.hide s
  | Op.on_animation => OverlayWidget.on_animation s

/-- Run a sequence of calls left to right. -/
def runOps (s : OverlayWidget.OverlayState) (ops : List Op) : OverlayWidget.OverlayState :=
  ops.foldl execOp s

/-- `n` firings of the spinner timer, i.e. `n` calls to `on_animation`. -/
def ticks : Nat → OverlayWidget.OverlayState → OverlayWidget.OverlayState
  | 0, s => s
  | n + 1, s => ticks n (OverlayWidget.on_animation s)

/-- The text payloads handed to `painter.drawText`, in order. -/
def drawnTexts (cmds : List DrawCmd) : List String :=
  cmds.filterMap fun c =>
    match c with
    | DrawCmd.text _ _ _ _ m => some m
    | _ => none

/-- The `(startAngle, spanAngle)` pairs handed to `painter.drawArc`,
in order, in Qt's 1/16-degree units. -/
def drawnArcAngles (cmds : List DrawCmd) : List (Int × Int) :=
  cmds.filterMap fun c =>
    match c with
    | DrawCmd.arc _ _ _ _ a b => some (a, b)
    | _ => none

/-! ## Reachability invariant -/

/-- Invariant of every reachable overlay state: the mode is one of the five
declared constants, the timer runs exactly in spin mode, the spin angle stays
below 90, an off-mode overlay is invisible, and the payload field of the
active textual/pixmap mode is populated. -/
def OverlayInv (s : OverlayWidget.OverlayState) : Prop :=
  s.mode < 5 ∧
  (s.timerActive = true ↔ s.mode = OverlayWidget.MODE_SPIN) ∧
  s.spin_angle < 90 ∧
  (s.mode = OverlayWidget.MODE_OFF → s.visible = false) ∧
  ((s.mode = OverlayWidget.MODE_ERROR ∨ s.mode = OverlayWidget.MODE_INFO_TEXT) →
    s.message.isSome = true) ∧
  (s.mode = OverlayWidget.MODE_INFO_PIXMAP → s.message_pixmap.isSome = true)

theorem inv_initState (sg_logo : Pixmap) (size0 : Nat × Nat) :
    OverlayInv (OverlayWidget.initState sg_logo size0) := by
  simp [OverlayInv, OverlayWidget.initState, OverlayWidget.MODE_OFF, OverlayWidget.MODE_SPIN,
    OverlayWidget.MODE_ERROR, OverlayWidget.MODE_INFO_TEXT, OverlayWidget.MODE_INFO_PIXMAP]

theorem inv_execOp {s : OverlayWidget.OverlayState} (h : OverlayInv s) (op : Op) :
    OverlayInv (execOp s op) := by
  obtain ⟨h1, h2, h3, h4, h5, h6⟩ := h
  cases op with
  | start_spin =>
      simp_all [OverlayInv, execOp, OverlayWidget.start_spin, OverlayWidget.MODE_OFF,
        OverlayWidget.MODE_SPIN, OverlayWidget.MODE_ERROR, OverlayWidget.MODE_INFO_TEXT,
        OverlayWidget.MODE_INFO_PIXMAP]
  | show_error_message msg =>
      simp_all [OverlayInv, execOp, OverlayWidget.show_error_message, OverlayWidget.MODE_OFF,
        OverlayWidget.MODE_SPIN, OverlayWidget.MODE_ERROR, OverlayWidget.MODE_INFO_TEXT,
        OverlayWidget.MODE_INFO_PIXMAP]
  | show_message msg =>
      simp_all [OverlayInv, execOp, OverlayWidget.show_message, OverlayWidget.MODE_OFF,
        OverlayWidget.MODE_SPIN, OverlayWidget.MODE_ERROR, OverlayWidget.MODE_INFO_TEXT,
        OverlayWidget.MODE_INFO_PIXMAP]
  | show_message_pixmap p =>
      simp_all [OverlayInv, execOp, OverlayWidget.show_message_pixmap, OverlayWidget.MODE_OFF,
        OverlayWidget.MODE_SPIN, OverlayWidget.MODE_ERROR, OverlayWidget.MODE_INFO_TEXT,
        OverlayWidget.MODE_INFO_PIXMAP]
  | hide =>
      simp_all [OverlayInv, execOp, OverlayWidget.hide, OverlayWidget.MODE_OFF,
        OverlayWidget.MODE_SPIN, OverlayWidget.MODE_ERROR, OverlayWidget.MODE_INFO_TEXT,
        OverlayWidget.MODE_INFO_PIXMAP]
  | on_animation =>
      refine ⟨h1, ?_, ?_, ?_, ?_, ?_⟩ <;>
        simp only [execOp, OverlayWidget.on_animation] <;>
        first
          | exact h2
          | exact h4
          | exact h5
          | exact h6
          | (split <;> omega)

theorem inv_runOps_of_inv {s : OverlayWidget.OverlayState} (h : OverlayInv s) (ops : List Op) :
    OverlayInv (runOps s ops) := by
  induction ops generalizing s with
  | nil => exact h
  | cons op rest ih => exact ih (inv_execOp h op)

theorem inv_runOps (sg_logo : Pixmap) (size0 : Nat × Nat) (ops : List Op) :
    OverlayInv (runOps (OverlayWidget.initState sg_logo size0) ops) :=
  inv_runOps_of_inv (inv_initState sg_logo size0) ops

/-! ## Claims -/

/-- Claim C1: for every sequence of calls to the overlay's mutating entry
points (the five public mode-changing operations, and also the timer
callback), after each call exactly one mode is active — the mode field holds
exactly one of the five declared mode constants — and the repaint timer is
running if and only if the mode is `MODE_SPIN`. -/
theorem overlay_C1 (sg_logo : Pixmap) (size0 : Nat × Nat) (ops : List Op) (op : Op) :
    (∃! m, m < 5 ∧
      (execOp (runOps (OverlayWidget.initState sg_logo size0) ops) op).mode = m) ∧
    ((execOp (runOps (OverlayWidget.initState sg_logo size0) ops) op).timerActive = true ↔
      (execOp (runOps (OverlayWidget.initState sg_logo size0) ops) op).mode =
        OverlayWidget.MODE_SPIN) := by
  obtain ⟨h1, h2, -⟩ := inv_execOp (inv_runOps sg_logo size0 ops) op
  exact ⟨⟨(execOp (runOps (OverlayWidget.initState sg_logo size0) ops) op).mode,
    ⟨h1, rfl⟩, fun y hy => hy.2.symm⟩, h2⟩

/-- Claim C2: `show_error_message text` sets the mode to `MODE_ERROR`,
replaces the stored message wholesale with `text`, stops the timer, makes the
overlay visible, and issues one `repaint()`; `show_message` does the same for
`MODE_INFO_TEXT` and the message field, and `show_message_pixmap` the same
for `MODE_INFO_PIXMAP` and the pixmap field. -/
theorem overlay_C2 (s : OverlayWidget.OverlayState) (text : String) (image : Pixmap) :
    ((OverlayWidget.show_error_message s text).mode = OverlayWidget.MODE_ERROR ∧
     (OverlayWidget.show_error_message s text).message = some text ∧
     (OverlayWidget.show_error_message s text).timerActive = false ∧
     (OverlayWidget.show_error_message s text).visible = true ∧
     (OverlayWidget.show_error_message s text).repaints = s.repaints + 1) ∧
    ((OverlayWidget.show_message s text).mode = OverlayWidget.MODE_INFO_TEXT ∧
     (OverlayWidget.show_message s text).message = some text ∧
     (OverlayWidget.show_message s text).timerActive = false ∧
     (OverlayWidget.show_message s text).visible = true ∧
     (OverlayWidget.show_message s text).repaints = s.repaints + 1) ∧
    ((OverlayWidget.show_message_pixmap s image).mode = OverlayWidget.MODE_INFO_PIXMAP ∧
     (OverlayWidget.show_message_pixmap s image).message_pixmap = some image ∧
     (OverlayWidget.show_message_pixmap s image).timerActive = false ∧
     (OverlayWidget.show_message_pixmap s image).visible = true ∧
     (OverlayWidget.show_message_pixmap s image).repaints = s.repaints + 1) :=
  ⟨⟨rfl, rfl, rfl, rfl, rfl⟩, ⟨rfl, rfl, rfl, rfl, rfl⟩, ⟨rfl, rfl, rfl, rfl, rfl⟩⟩

/-- Claim C3: a resize event on the parent makes the installed filter emit
the `resized` signal, whose connected handler sets the overlay's size to
exactly the parent's size `(W, H)`; and `eventFilter` returns `False` on
every event, so the original notification is never consumed. -/
theorem overlay_C3 (s : OverlayWidget.OverlayState) (W H : Nat)
    (t : ResizeEventFilter.QEventType) :
    ResizeEventFilter.parentEventStep s ResizeEventFilter.QEventType.Resize (W, H) =
      ({ s with size := (W, H) }, false) ∧
    (ResizeEventFilter.eventFilter ResizeEventFilter.QEventType.Resize).emitted = true ∧
    (ResizeEventFilter.eventFilter t).consumed = false ∧
    (OverlayWidget.on_parent_resized s (W, H)).size = (W, H) := by
  refine ⟨rfl, rfl, ?_, rfl⟩
  cases t <;> rfl

/-- Claim C10: `start_spin` leaves the spin angle unchanged (it does not
reset it to 0); the angle is 0 as constructed, so it is 0 on the first spin
after construction only. -/
theorem overlay_C10 (s : OverlayWidget.OverlayState) (sg_logo : Pixmap)
    (size0 : Nat × Nat) :
    (OverlayWidget.start_spin s).spin_angle = s.spin_angle ∧
    (OverlayWidget.initState sg_logo size0).spin_angle = 0 :=
  ⟨rfl, rfl⟩

/-- Claim C7: in every reachable state the spin angle lies in `[0, 90)`, and
one firing of the timer callback increments it by exactly 1, wrapping from 89
back to 0, issues one `repaint()`, and keeps the angle in `[0, 90)`. -/
theorem overlay_C7 (sg_logo : Pixmap) (size0 : Nat × Nat) (ops : List Op) :
    (runOps (OverlayWidget.initState sg_logo size0) ops).spin_angle < 90 ∧
    (OverlayWidget.on_animation (runOps (OverlayWidget.initState sg_logo size0) ops)).spin_angle =
      (if (runOps (OverlayWidget.initState sg_logo size0) ops).spin_angle = 89 then 0
       else (runOps (OverlayWidget.initState sg_logo size0) ops).spin_angle + 1) ∧
    (OverlayWidget.on_animation (runOps (OverlayWidget.initState sg_logo size0) ops)).repaints =
      (runOps (OverlayWidget.initState sg_logo size0) ops).repaints + 1 ∧
    (OverlayWidget.on_animation (runOps (OverlayWidget.initState sg_logo size0) ops)).spin_angle < 90 := by
  obtain ⟨-, -, h3, -⟩ := inv_runOps sg_logo size0 ops
  refine ⟨h3, ?_, rfl, ?_⟩ <;> simp only [OverlayWidget.on_animation] <;>
    (repeat' split) <;> omega

/-- If a state is in off mode with the timer stopped and the widget
invisible, `hide` does not change it at all. -/
theorem hide_eq_self {s : OverlayWidget.OverlayState}
    (h0 : s.mode = OverlayWidget.MODE_OFF) (h1 : s.timerActive = false)
    (h2 : s.visible = false) : OverlayWidget.hide s = s := by
  cases s
  simp_all [OverlayWidget.hide]

/-- Claim C8: on a reachable state whose mode is already off, `hide` is a
strict no-op (the state, spin angle, payloads, visibility and timer are all
unchanged and no timer is started); and after `hide` on any state the mode is
off, the timer stopped, and the widget invisible, so `hide` is idempotent. -/
theorem overlay_C8 (sg_logo : Pixmap) (size0 : Nat × Nat) (ops : List Op)
    (s : OverlayWidget.OverlayState) :
    ((runOps (OverlayWidget.initState sg_logo size0) ops).mode = OverlayWidget.MODE_OFF →
      OverlayWidget.hide (runOps (OverlayWidget.initState sg_logo size0) ops) =
        runOps (OverlayWidget.initState sg_logo size0) ops) ∧
    (OverlayWidget.hide s).mode = OverlayWidget.MODE_OFF ∧
    (OverlayWidget.hide s).timerActive = false ∧
    (OverlayWidget.hide s).visible = false := by
  refine ⟨fun h0 => ?_, rfl, rfl, rfl⟩
  obtain ⟨-, h2, -, h4, -⟩ := inv_runOps sg_logo size0 ops
  refine hide_eq_self h0 ?_ (h4 h0)
  by_contra hne
  have : (runOps (OverlayWidget.initState sg_logo size0) ops).timerActive = true := by
    revert hne
    cases (runOps (OverlayWidget.initState sg_logo size0) ops).timerActive <;> simp
  rw [h2.mp this, OverlayWidget.MODE_SPIN] at h0
  simp [OverlayWidget.MODE_OFF] at h0

/-- Witness for C8 at the freshly constructed state, whose mode is off. -/
theorem overlay_C8_witness :
    (runOps (OverlayWidget.initState ⟨16, 16⟩ (0, 0)) []).mode = OverlayWidget.MODE_OFF ∧
    OverlayWidget.hide (runOps (OverlayWidget.initState ⟨16, 16⟩ (0, 0)) []) =
      runOps (OverlayWidget.initState ⟨16, 16⟩ (0, 0)) [] :=
  ⟨rfl, (overlay_C8 ⟨16, 16⟩ (0, 0) [] (OverlayWidget.initState ⟨16, 16⟩ (0, 0))).1 rfl⟩

/-- Counterexample to claim C4 as stated: `start_spin` does not reset the
spin angle, so after the session `start_spin; on_animation; hide` the angle
is 1, and a second `start_spin` followed by `N = 0` ticks leaves it at 1,
not `0 % 90 = 0`. -/
theorem overlay_C4_counterexample :
    (ticks 0 (OverlayWidget.start_spin
      (runOps (OverlayWidget.initState ⟨16, 16⟩ (0, 0))
        [Op.start_spin, Op.on_animation, Op.hide]))).spin_angle = 1 ∧
    (1 : Nat) ≠ 0 % 90 := by
  exact ⟨rfl, by decide⟩

/-- From any spin angle below 90, `n` timer callbacks advance the angle to
its old value plus `n`, modulo 90. -/
theorem ticks_spin_angle (n : Nat) : ∀ s : OverlayWidget.OverlayState,
    s.spin_angle < 90 → (ticks n s).spin_angle = (s.spin_angle + n) % 90 := by
  induction n with
  | zero =>
      intro s h
      simp [ticks]
      omega
  | succ n ih =>
      intro s h
      have ha : (OverlayWidget.on_animation s).spin_angle = (s.spin_angle + 1) % 90 := by
        simp [OverlayWidget.on_animation]
        split <;> omega
      have hlt : (OverlayWidget.on_animation s).spin_angle < 90 := by
        rw [ha]
        omega
      rw [show ticks (n + 1) s = ticks n (OverlayWidget.on_animation s) from rfl,
        ih (OverlayWidget.on_animation s) hlt, ha]
      omega

/-- Claim C4, amended: `start_spin` does not reset the spin angle, so from a
state whose spin angle is `a < 90`, calling `start_spin` and letting the
timer fire `N` times leaves the angle at `(a + N) % 90`; this equals
`N % 90` exactly when the prior angle was 0, e.g. on the first spin after
construction. -/
theorem overlay_C4_amended (s : OverlayWidget.OverlayState) (N : Nat)
    (h : s.spin_angle < 90) :
    (ticks N (OverlayWidget.start_spin s)).spin_angle = (s.spin_angle + N) % 90 :=
  ticks_spin_angle N (OverlayWidget.start_spin s) h

/-- Witness for the amended C4 at the freshly constructed state and
`N = 100`: the angle ends at `(0 + 100) % 90 = 10`. -/
theorem overlay_C4_witness :
    (OverlayWidget.initState ⟨16, 16⟩ (0, 0)).spin_angle < 90 ∧
    (ticks 100 (OverlayWidget.start_spin (OverlayWidget.initState ⟨16, 16⟩ (0, 0)))).spin_angle =
      ((OverlayWidget.initState ⟨16, 16⟩ (0, 0)).spin_angle + 100) % 90 :=
  ⟨by decide, overlay_C4_amended (OverlayWidget.initState ⟨16, 16⟩ (0, 0)) 100 (by decide)⟩

/-- Claim C6: whenever `paintEvent` completes it returns the instance state
unchanged — mode, message, message pixmap and spin angle included — and when
the state's mode is off it draws nothing at all. -/
theorem overlay_C6 (s : OverlayWidget.OverlayState) (w h : Nat) :
    (∀ st cmds, OverlayWidget.paintEvent s w h = some (st, cmds) → st = s) ∧
    (s.mode = OverlayWidget.MODE_OFF → OverlayWidget.paintEvent s w h = some (s, [])) := by
  constructor
  · intro st cmds heq
    unfold OverlayWidget.paintEvent at heq
    repeat' split at heq
    all_goals simp_all
  · intro h0
    simp [OverlayWidget.paintEvent, h0]

/-- Witness for C6 at the freshly constructed (off-mode) state. -/
theorem overlay_C6_witness :
    (OverlayWidget.initState ⟨16, 16⟩ (0, 0)).mode = OverlayWidget.MODE_OFF ∧
    OverlayWidget.paintEvent (OverlayWidget.initState ⟨16, 16⟩ (0, 0)) 100 50 =
      some (OverlayWidget.initState ⟨16, 16⟩ (0, 0), []) :=
  ⟨rfl, (overlay_C6 (OverlayWidget.initState ⟨16, 16⟩ (0, 0)) 100 50).2 rfl⟩

/-- Claim C5: rendering reads only the payload of the active mode.  After
`show_error_message x` the rendered text is exactly `x`; after a subsequent
`show_message y` it is exactly `y`, never a mix; in general, in the two
textual modes the rendered text is exactly the stored message, and in every
other mode no text is drawn at all. -/
theorem overlay_C5 (s : OverlayWidget.OverlayState) (w h : Nat) (x y : String) :
    (OverlayWidget.paintEvent (OverlayWidget.show_error_message s x) w h).map
        (fun r => drawnTexts r.2) = some [x] ∧
    (OverlayWidget.paintEvent
        (OverlayWidget.show_message (OverlayWidget.show_error_message s x) y) w h).map
        (fun r => drawnTexts r.2) = some [y] ∧
    (∀ m, s.message = some m →
      (s.mode = OverlayWidget.MODE_ERROR ∨ s.mode = OverlayWidget.MODE_INFO_TEXT) →
      (OverlayWidget.paintEvent s w h).map (fun r => drawnTexts r.2) = some [m]) ∧
    (s.mode ≠ OverlayWidget.MODE_ERROR → s.mode ≠ OverlayWidget.MODE_INFO_TEXT →
      ∀ st cmds, OverlayWidget.paintEvent s w h = some (st, cmds) → drawnTexts cmds = []) := by
  refine ⟨?_, ?_, ?_, ?_⟩
  · simp [OverlayWidget.paintEvent, OverlayWidget.show_error_message, drawnTexts,
      OverlayWidget.MODE_OFF, OverlayWidget.MODE_SPIN, OverlayWidget.MODE_ERROR,
      OverlayWidget.MODE_INFO_TEXT, OverlayWidget.MODE_INFO_PIXMAP]
  · simp [OverlayWidget.paintEvent, OverlayWidget.show_error_message,
      OverlayWidget.show_message, drawnTexts, OverlayWidget.MODE_OFF,
      OverlayWidget.MODE_SPIN, OverlayWidget.MODE_ERROR, OverlayWidget.MODE_INFO_TEXT,
      OverlayWidget.MODE_INFO_PIXMAP]
  · rintro m hm (hmode | hmode) <;>
      simp [OverlayWidget.paintEvent, hmode, hm, drawnTexts, OverlayWidget.MODE_OFF,
        OverlayWidget.MODE_SPIN, OverlayWidget.MODE_ERROR, OverlayWidget.MODE_INFO_TEXT,
        OverlayWidget.MODE_INFO_PIXMAP]
  · intro hne hnt st cmds heq
    unfold OverlayWidget.paintEvent at heq
    repeat' split at heq
    all_goals simp_all [drawnTexts]
    all_goals obtain ⟨-, rfl⟩ := heq
    all_goals simp

/-- Witness for C5: in error mode with message `"x"` the rendered text is
exactly `["x"]`. -/
theorem overlay_C5_witness :
    (OverlayWidget.show_error_message (OverlayWidget.initState ⟨16, 16⟩ (0, 0)) "x").message =
      some "x" ∧
    (OverlayWidget.paintEvent
        (OverlayWidget.show_error_message (OverlayWidget.initState ⟨16, 16⟩ (0, 0)) "x")
        100 50).map (fun r => drawnTexts r.2) = some ["x"] :=
  ⟨rfl,
    (overlay_C5 (OverlayWidget.show_error_message (OverlayWidget.initState ⟨16, 16⟩ (0, 0)) "x")
      100 50 "x" "y").2.2.1 "x" rfl (Or.inl rfl)⟩

/-- Claim C9: rendering in spin mode draws exactly one arc; its start angle
as passed to the toolkit is `spin_angle * 4` degrees expressed in Qt's
1/16-degree units, i.e. `spin_angle * 4 * 16`, and its span is the fixed
`340 * 16`, strictly less than the full circle `360 * 16`, leaving a gap. -/
theorem overlay_C9 (s : OverlayWidget.OverlayState) (w h : Nat)
    (hmode : s.mode = OverlayWidget.MODE_SPIN) :
    (OverlayWidget.paintEvent s w h).map (fun r => drawnArcAngles r.2) =
      some [((s.spin_angle : Int) * 4 * 16, 340 * 16)] ∧
    (340 * 16 : Int) < 360 * 16 := by
  constructor
  · simp [OverlayWidget.paintEvent, hmode, drawnArcAngles, OverlayWidget.MODE_OFF,
      OverlayWidget.MODE_SPIN]
  · decide

/-- Witness for C9 at the freshly started spinner, whose angle is 0. -/
theorem overlay_C9_witness :
    (OverlayWidget.start_spin (OverlayWidget.initState ⟨16, 16⟩ (0, 0))).mode =
      OverlayWidget.MODE_SPIN ∧
    (OverlayWidget.paintEvent (OverlayWidget.start_spin (OverlayWidget.initState ⟨16, 16⟩ (0, 0)))
        100 50).map (fun r => drawnArcAngles r.2) =
      some [(((OverlayWidget.start_spin (OverlayWidget.initState ⟨16, 16⟩ (0, 0))).spin_angle : Int)
        * 4 * 16, 340 * 16)] :=
  ⟨rfl,
    (overlay_C9 (OverlayWidget.start_spin (OverlayWidget.initState ⟨16, 16⟩ (0, 0))) 100 50 rfl).1⟩
